import Mathlib

/-!
Verification development for the JIAICB conversational-memory server
(`server.py`).  The Python source is shallowly embedded: JSON documents
become an inductive type, Python dictionary/iteration/strip semantics
(including the exceptions they can raise) become `Except Unit`
computations, and the `/api` request handler becomes a pure function
over an explicit server state (in-memory store plus durable snapshot).
-/

namespace JTAICB

/-- JSON documents as handled by the Python server.  Dicts are modelled as
ordered association lists with unique keys; numbers are modelled as
integers (no claim depends on float behaviour). -/
inductive Json where
  | null
  | bool (b : Bool)
  | num (n : Int)
  | str (s : String)
  | arr (items : List Json)
  | obj (fields : List (String × Json))

abbrev History := List Json
abbrev Store := List (String × History)

/-- Python truthiness of a JSON value. -/
def pyTruthy : Json → Bool
  | .null => false
  | .bool b => b
  | .num n => n != 0
  | .str s => s != ""
  | .arr [] => false
  | .arr (_ :: _) => true
  | .obj [] => false
  | .obj (_ :: _) => true

/-- First-match lookup in a field list (Python dict access; keys are unique). -/
def lookupField : List (String × Json) → String → Option Json
  | [], _ => none
  | (k, v) :: rest, key => if k = key then some v else lookupField rest key

/-- Python `x.get(key, default)`: raises (error) when the receiver is not a dict. -/
def pyGetD (v : Json) (key : String) (dflt : Json) : Except Unit Json :=
  match v with
  | .obj fields => .ok ((lookupField fields key).getD dflt)
  | _ => .error ()

/-- Python `s.strip()` modelled at the character level (leading and
trailing whitespace removed; the claims only exercise ASCII whitespace). -/
def stripStr (s : String) : String :=
  ⟨List.reverse ((List.reverse (s.data.dropWhile Char.isWhitespace)).dropWhile Char.isWhitespace)⟩

/-- Python `s.lower()` modelled at the character level. -/
def lowerStr (s : String) : String :=
  ⟨s.data.map Char.toLower⟩

def listPrefix : List Char → List Char → Bool
  | [], _ => true
  | _ :: _, [] => false
  | a :: as, b :: bs => a == b && listPrefix as bs

def listSub (n : List Char) : List Char → Bool
  | [] => listPrefix n []
  | b :: bs => listPrefix n (b :: bs) || listSub n bs

/-- Python substring membership `needle in hay` for strings. -/
def strIn (needle hay : String) : Bool :=
  listSub needle.data hay.data

/-- Python `x.strip()`: raises when the receiver is not a string. -/
def pyStrip : Json → Except Unit String
  | .str s => .ok (stripStr s)
  | _ => .error ()

/-- Python iteration: lists yield their items, strings yield their characters,
dicts yield their keys; other values raise `TypeError`. -/
def pyIter : Json → Except Unit (List Json)
  | .arr items => .ok items
  | .str s => .ok (s.toList.map fun c => .str (String.singleton c))
  | .obj fields => .ok (fields.map fun kv => .str kv.1)
  | _ => .error ()

/-- An element consumed by Python `str.join`: raises on a non-string. -/
def asStr : Json → Except Unit String
  | .str s => .ok s
  | _ => .error ()

/-- Total dict lookup used by the reply fallback in the handler
(`data.get("text")` on a value known to be a dict; `null` when absent
or when the document is not a dict). -/
def jget (d : Json) (k : String) : Json :=
  match d with
  | .obj fields => (lookupField fields k).getD .null
  | _ => .null

/-- Shape rule 1 of `_extract_text_from_gemini_response` (server.py lines
93-97): `candidates[0].content.parts[*].text` joined and stripped.  The
result is `some v` when the rule structurally matches (the code returns
from inside the `if`, even when the joined text is empty), `none` when
control falls through to the next rule, and an error when a Python
exception occurs. -/
def rule1E (data : Json) : Except Unit (Option Json) := do
  let candidates ← pyGetD data "candidates" .null
  match candidates with
  | .arr (c0 :: _) =>
    do
      let content ← pyGetD c0 "content" (.obj [])
      let parts ← pyGetD content "parts" (.arr [])
      let items ← pyIter parts
      let strs ← items.mapM fun p => do
        let t ← pyGetD p "text" (.str "")
        asStr t
      pure (some (.str (stripStr (String.join strs))))
  | _ => pure none

/-- Shape rules 2-3 (lines 99-110): `output` as a list of dicts (texts of
the dict items joined with a line break and stripped) or as a single dict
(content.text, else text, else the empty string, returned unstripped).  A
truthy `output` that is neither a list nor a dict falls through. -/
def rule23E (data : Json) : Except Unit (Option Json) := do
  let output ← pyGetD data "output" .null
  if pyTruthy output then
    match output with
    | .arr items =>
      do
        let texts ← items.foldlM (fun acc item =>
          match item with
          | .obj _ => do
            let c ← pyGetD item "content" (.obj [])
            let t1 ← pyGetD c "text" (.str "")
            let t2 ← pyGetD item "text" (.str "")
            pure (acc ++ [if pyTruthy t1 then t1 else if pyTruthy t2 then t2 else .str ""])
          | _ => pure acc) []
        let strs ← (texts.filter pyTruthy).mapM asStr
        pure (some (.str (stripStr (String.intercalate "\n" strs))))
    | .obj _ =>
      do
        let c ← pyGetD output "content" (.obj [])
        let t1 ← pyGetD c "text" (.str "")
        let t2 ← pyGetD output "text" (.str "")
        pure (some (if pyTruthy t1 then t1 else if pyTruthy t2 then t2 else .str ""))
    | _ => pure none
  else
    pure none

/-- Shape rule 4 (lines 113-114): `"responses" in data` followed by a
space-join of `responses[*].text`, stripped.  The membership test on a
non-dict document mirrors the Python `in` operator (element membership on
lists, substring test on strings, `TypeError` otherwise). -/
def rule4E (data : Json) : Except Unit (Option Json) :=
  match data with
  | .obj fields =>
    match lookupField fields "responses" with
    | some (.arr rs) =>
      (rs.mapM fun rr => do
        let t ← pyGetD rr "text" (.str "")
        asStr t).map fun strs => some (.str (stripStr (String.intercalate " " strs)))
    | _ => .ok none
  | .arr items =>
    if items.any (fun j => match j with | .str s => s == "responses" | _ => false)
    then .error () else .ok none
  | .str s => if strIn "responses" s then .error () else .ok none
  | _ => .error ()

/-- The body of `_extract_text_from_gemini_response` (lines 90-117): the
rule groups run in sequence inside one `try` block, so an exception
anywhere aborts the whole extraction; if no rule returns, the result is
the empty string. -/
def extractTextE (data : Json) : Except Unit Json := do
  let r1 ← rule1E data
  match r1 with
  | some v => pure v
  | none =>
    let r2 ← rule23E data
    match r2 with
    | some v => pure v
    | none =>
      let r3 ← rule4E data
      match r3 with
      | some v => pure v
      | none => pure (.str "")

/-- The `except` handler of the extractor (lines 118-120): any exception
is logged and the empty string is returned. -/
def extractText (data : Json) : Json :=
  match extractTextE data with
  | .ok v => v
  | .error _ => .str ""

/-- The fallback applied by the `/api` handler when the extraction is
falsy (lines 221-225): top-level `text`, then `message`, then the
sentinel; a non-dict document goes straight to the sentinel. -/
def callerFallback (d : Json) : Json :=
  match d with
  | .obj _ =>
    if pyTruthy (jget d "text") then jget d "text"
    else if pyTruthy (jget d "message") then jget d "message"
    else .str "No reply"
  | _ => .str "No reply"

/-- Reply normalization as performed by the `/api` handler on a parsed
provider body (lines 217-225): the extractor result when truthy,
otherwise the caller fallback. -/
def normalizeReply (data : Json) : Json :=
  if pyTruthy (extractText data) then extractText data else callerFallback data

/-- First-match read of a client history in `app.memory`. -/
def storeGet : Store → String → Option History
  | [], _ => none
  | (k, v) :: rest, key => if k = key then some v else storeGet rest key

/-- Python dict assignment `app.memory[id] = h`: updates the existing key
in place, or inserts a new key at the end of the mapping. -/
def storeSet : Store → String → History → Store
  | [], key, h => [(key, h)]
  | (k, v) :: rest, key, h =>
    if k = key then (key, h) :: rest else (k, v) :: storeSet rest key h

/-- The JSON document `json.dump` produces for the store
(`{ clientId: [turn, ...], ... }`). -/
def storeToJson (s : Store) : Json :=
  .obj (s.map fun kv => (kv.1, .arr kv.2))

/-- Reading a store back out of a JSON document: every top-level field
must hold an array of turns. -/
def fieldsToStore : List (String × Json) → Option Store
  | [] => some []
  | (k, .arr h) :: rest => (fieldsToStore rest).map (fun s => (k, h) :: s)
  | _ => none

def jsonToStore : Json → Option Store
  | .obj fields => fieldsToStore fields
  | _ => none

/-- `load_memory` (lines 34-42) on the modelled disk: a missing file
yields an empty mapping, and `json.load(f) or {}` replaces a falsy
document by an empty dict.  (A file written by `_write_memory_file`
always parses; the reset-on-parse-error branch is noted in the source.) -/
def load_memory : Option Json → Json
  | none => .obj []
  | some j => if pyTruthy j then j else .obj []

/-- One conversation turn written by the handler itself. -/
def mkTurn (sender text : String) : Json :=
  .obj [("sender", .str sender), ("text", .str text)]

/-- The AI turn: the reply can be any JSON value produced by the
normalizer (Python stores it untouched). -/
def mkTurnJ (sender : String) (text : Json) : Json :=
  .obj [("sender", .str sender), ("text", text)]

/-- In-memory store plus the durable snapshot (`app.memory` and the
document at `MEMORY_FILE`; `none` = no file). -/
structure ServerState where
  memory : Store
  disk : Option Json

/-- A mutation under `memory_lock` followed by `_write_memory_file`
(lines 44-57): the in-memory mapping is updated, and when the write
succeeds (`w = true`) the whole mapping is dumped to disk via the
temp-file-then-atomic-rename, modelled as one atomic replacement of the
disk document; a failed write (lines 55-57) is caught, logged and leaves
the disk untouched. -/
def mutateStore (st : ServerState) (w : Bool) (id : String) (h : History) : ServerState :=
  let mem := storeSet st.memory id h
  ⟨mem, if w then some (storeToJson mem) else st.disk⟩

/-- The user-turn append with its 200-turn front truncation
(lines 160-164). -/
def appendUserHist (h : History) (input : String) : History :=
  let h1 := h ++ [mkTurn "You" input]
  if h1.length > 200 then h1.drop (h1.length - 200) else h1

/-- The history a client sees (empty when the id is unseen). -/
def histAt (st : ServerState) (k : String) : History :=
  (storeGet st.memory k).getD []

inductive Method where
  | GET
  | POST

/-- One HTTP request to `/api`, reduced to the fields the handler reads. -/
structure Request where
  method : Method
  argsDevice : Option String
  argsClear : Option String
  argsView : Option String
  argsInput : Option String
  headerDevice : Option String
  jsonBody : Option Json

/-- `request.get_json(silent=True) or {}`: a missing or falsy body
becomes an empty dict. -/
def bodyData (r : Request) : Json :=
  match r.jsonBody with
  | none => .obj []
  | some j => if pyTruthy j then j else .obj []

/-- The body `device` field as seen by `_get_device_id`: `data.get` on a
non-dict body raises and is caught (yielding no candidate); a device
value that is not a string is likewise modelled as no candidate. -/
def bodyDeviceStr (r : Request) : String :=
  match bodyData r with
  | .obj fields =>
    match lookupField fields "device" with
    | some (.str s) => s
    | _ => ""
  | _ => ""

/-- `_get_device_id` (lines 77-88): query value, else body field, else
header, else the literal `unknown`; empty strings are falsy and fall
through. -/
def getDeviceId (r : Request) : String :=
  let d1 := r.argsDevice.getD ""
  if d1 = "" then
    let d2 := bodyDeviceStr r
    if d2 = "" then
      let d3 := r.headerDevice.getD ""
      if d3 = "" then "unknown" else d3
    else d2
  else d1

/-- `request.args.get('clear', 'false').lower() == 'true'` (line 125). -/
def clearFlag (r : Request) : Bool :=
  lowerStr (r.argsClear.getD "false") == "true"

/-- The import-branch test `"memory" in data and isinstance(data["memory"], list)`
(line 133).  On a dict it is a key test plus subscript; on a list,
membership is element equality and a string subscript raises; on a
string, membership is a substring test and the subscript raises; on
other (truthy) values `in` itself raises. -/
def importCheck (data : Json) : Except Unit (Option (List Json)) :=
  match data with
  | .obj fields =>
    match lookupField fields "memory" with
    | some (.arr items) => .ok (some items)
    | _ => .ok none
  | .arr items =>
    if items.any (fun j => match j with | .str s => s == "memory" | _ => false)
    then .error () else .ok none
  | .str s => if strIn "memory" s then .error () else .ok none
  | _ => .error ()

/-- The import test is only reached on POST (line 129). -/
def importResult (r : Request) : Except Unit (Option (List Json)) :=
  match r.method with
  | .POST => importCheck (bodyData r)
  | .GET => .ok none

/-- `user_input` (lines 140-142): the raw value is or-defaulted to the
empty string and stripped; on POST a non-string truthy `input` value
makes `.strip()` raise. -/
def getUserInput (r : Request) : Except Unit String :=
  match r.method with
  | .GET => .ok (stripStr (r.argsInput.getD ""))
  | .POST =>
    match pyGetD (bodyData r) "input" .null with
    | .error e => .error e
    | .ok v => if pyTruthy v then pyStrip v else .ok ""

/-- One role-tagged entry of the `contents` array sent to the provider
(the single `parts` text is inlined). -/
structure GTurn where
  role : String
  text : String
deriving DecidableEq

/-- Outcome of the outbound Gemini call, when one is made. -/
inductive ProviderOutcome where
  | transportError (msg : String)
  | httpError (status : Nat)
  | badJson (msg : String)
  | success (body : Json)

/-- Ambient configuration and effects: the API key (empty = unset, the
falsy check on line 170), the provider outcome, and the success of the
first and second durable write of the request. -/
structure Env where
  apiKey : String
  provider : ProviderOutcome
  w1 : Bool
  w2 : Bool

/-- Lines 168-229: the reply text and, when the provider is actually
called, the `contents` payload — which the code builds from `user_input`
alone (lines 173-181). -/
def computeReply (env : Env) (user_input : String) : Json × Option (List GTurn) :=
  if env.apiKey = "" then (.str "Error: Missing Gemini API key.", none)
  else
    let contents := [⟨"user", user_input⟩]
    match env.provider with
    | .transportError m => (.str ("Error contacting Gemini: " ++ m), some contents)
    | .httpError s => (.str ("Error contacting Gemini: status " ++ toString s), some contents)
    | .badJson m => (.str ("Error parsing Gemini response: " ++ m), some contents)
    | .success b => (normalizeReply b, some contents)

/-- Result of one `/api` request: response body, HTTP status, final
server state, and the provider payload when an outbound call was made. -/
structure ApiOutcome where
  body : Json
  status : Nat
  state : ServerState
  sent : Option (List GTurn)

/-- The normal-prompt tail of the handler (lines 159-237): append the
user turn with the cap and persist, compute the reply, append the AI
turn without a cap and persist, return the reply. -/
def promptFlow (env : Env) (st : ServerState) (device_id user_input : String) : ApiOutcome :=
  let h := (storeGet st.memory device_id).getD []
  let st1 := mutateStore st env.w1 device_id (appendUserHist h user_input)
  let rep := computeReply env user_input
  let h2 := (storeGet st1.memory device_id).getD []
  let st2 := mutateStore st1 env.w2 device_id (h2 ++ [mkTurnJ "AI" rep.1])
  ⟨rep.1, 200, st2, rep.2⟩

/-- The `/api` handler (lines 122-237), in the dispatch order of the
code: import (POST only), then `user_input`, then clear, then view, then
the empty-input rejection, then the prompt flow.  An `Except` error is
an uncaught Python exception (a 500 from Flask). -/
def api (env : Env) (st : ServerState) (r : Request) : Except Unit ApiOutcome :=
  match importResult r with
  | .error e => .error e
  | .ok (some items) =>
    .ok ⟨.str "Memory imported successfully!", 200,
      mutateStore st env.w1 (getDeviceId r) items, none⟩
  | .ok none =>
    match getUserInput r with
    | .error e => .error e
    | .ok user_input =>
      if clearFlag r then
        .ok ⟨.str "Memory cleared!", 200, mutateStore st env.w1 (getDeviceId r) [], none⟩
      else if r.argsView = some "history" then
        .ok ⟨.arr ((storeGet st.memory (getDeviceId r)).getD []), 200, st, none⟩
      else if user_input = "" then
        .ok ⟨.str "No input", 400, st, none⟩
      else
        .ok (promptFlow env st (getDeviceId r) user_input)

/-- The payload an `/api` call sent to the provider, if any. -/
def apiSent (e : Except Unit ApiOutcome) : Option (List GTurn) :=
  match e with
  | .ok o => o.sent
  | .error _ => none

/-- The stored history of a client after an `/api` call. -/
def apiHist (e : Except Unit ApiOutcome) (k : String) : Option History :=
  match e with
  | .ok o => storeGet o.state.memory k
  | .error _ => none

/-- The response body of an `/api` call. -/
def apiBody (e : Except Unit ApiOutcome) : Json :=
  match e with
  | .ok o => o.body
  | .error _ => .null

/-- Everything in an outcome except the disk snapshot (used to state that
write failures change nothing else). -/
def stripDisk (e : Except Unit ApiOutcome) : Except Unit (Json × Nat × Store × Option (List GTurn)) :=
  e.map fun o => (o.body, o.status, o.state.memory, o.sent)

/-- Sender of a stored turn (empty when the record is not turn-shaped). -/
def senderOf (t : Json) : String :=
  match t with
  | .obj fields =>
    match lookupField fields "sender" with
    | some (.str s) => s
    | _ => ""
  | _ => ""

/-- Text of a stored turn (empty when the record is not turn-shaped). -/
def textOf (t : Json) : String :=
  match t with
  | .obj fields =>
    match lookupField fields "text" with
    | some (.str s) => s
    | _ => ""
  | _ => ""

/-- Modelled from the spec: the repository has no ContextBuilder; this is
the §4.2 policy the claims compare the code against.  Take the most
recent `maxWindow = 60` turns oldest-first, map sender `You` to role
`user` and any other sender to the responder role, skip empty-text
turns, and guarantee the window ends in a user turn carrying the
just-submitted prompt. -/
def contextBuilderSpec (history : List Json) (prompt : String) : List GTurn :=
  let window := history.drop (history.length - 60)
  let mapped := window.filterMap fun t =>
    if textOf t = "" then none
    else some ⟨if senderOf t = "You" then "user" else "responder", textOf t⟩
  match mapped.getLast? with
  | some g => if g.role = "user" ∧ g.text = prompt then mapped else mapped ++ [⟨"user", prompt⟩]
  | none => [⟨"user", prompt⟩]

/-- Modelled from the spec: a Turn-shaped record (§3), an object whose
`sender` and `text` fields are strings.  The code performs no such
check; the definition is needed to state what bulk import accepts. -/
def isTurnShaped : Json → Bool
  | .obj fields =>
    (match lookupField fields "sender" with | some (.str _) => true | _ => false) &&
    (match lookupField fields "text" with | some (.str _) => true | _ => false)
  | _ => false

/-- Environment for repeated-request runs: no API key configured (the
provider is never called) and failing writes (the disk stays empty). -/
def envRun : Env := ⟨"", .success .null, false, false⟩

/-- A plain GET prompt request with input `p` and no device. -/
def reqRun : Request := ⟨.GET, none, none, none, some "p", none, none⟩

/-- One full prompt request against the server state (the handler never
raises on this request). -/
def stepRun (st : ServerState) : ServerState :=
  match api envRun st reqRun with
  | .ok o => o.state
  | .error _ => st

/-- The server state after `n` consecutive prompt requests, starting from
an empty store and no memory file. -/
def runN : Nat → ServerState
  | 0 => ⟨[], none⟩
  | n + 1 => stepRun (runN n)

/-- Provider environment used by concrete counterexamples: a key is
configured and the provider call succeeds with an empty JSON object. -/
def envC1 : Env := ⟨"k", .success (.obj []), false, false⟩

/-- A store in which client `unknown` already has two non-empty turns. -/
def stC1 : ServerState := ⟨[("unknown", [mkTurn "You" "a", mkTurn "AI" "b"])], none⟩

/-- A plain GET prompt request with input `c` and no device. -/
def reqC1 : Request := ⟨.GET, none, none, none, some "c", none, none⟩

/-- The post-append stored history of `unknown` for the C1 scenario. -/
def postHistC1 : History := [mkTurn "You" "a", mkTurn "AI" "b", mkTurn "You" "c"]

/-- Provider body whose output-object rule matches whitespace-only text. -/
def cexC4 : Json := .obj [("output", .obj [("text", .str " ")])]

/-- The first cited normalization example. -/
def exC4a : Json :=
  .obj [("candidates", .arr [.obj [("content", .obj [("parts", .arr [.obj [("text", .str "hi")]])])]])]

/-- The second cited normalization example. -/
def exC4b : Json := .obj [("output", .obj [("text", .str "x")])]

/-- Provider body whose candidates rule raises (a non-dict candidate)
while the output rule would match `y`. -/
def cexC5 : Json := .obj [("candidates", .arr [.num 42]), ("output", .obj [("text", .str "y")])]

/-- A POST whose memory payload is a list holding a non-Turn record. -/
def reqC6 : Request := ⟨.POST, none, none, none, none, none, some (.obj [("memory", .arr [.num 42])])⟩

/-- A POST that asks for a clear and simultaneously carries a bulk
memory payload. -/
def reqC8 : Request :=
  ⟨.POST, none, some "true", none, none, none, some (.obj [("memory", .arr [mkTurn "You" "a"])])⟩

theorem storeGet_storeSet_self (s : Store) (k : String) (h : History) :
    storeGet (storeSet s k h) k = some h := by
  induction s with
  | nil => simp [storeSet, storeGet]
  | cons kv rest ih =>
    obtain ⟨k1, v1⟩ := kv
    by_cases hk : k1 = k
    · simp [storeSet, storeGet, hk]
    · simp [storeSet, storeGet, hk, ih]

theorem storeGet_storeSet_ne (s : Store) (k k2 : String) (h : History) (hne : k2 ≠ k) :
    storeGet (storeSet s k h) k2 = storeGet s k2 := by
  induction s with
  | nil => simp [storeSet, storeGet, Ne.symm hne]
  | cons kv rest ih =>
    obtain ⟨k1, v1⟩ := kv
    by_cases hk : k1 = k
    · subst hk
      simp [storeSet, storeGet, Ne.symm hne]
    · simp [storeSet, storeGet, hk, ih]

theorem appendUserHist_length_le (h : History) (s : String) :
    (appendUserHist h s).length ≤ 200 := by
  unfold appendUserHist
  by_cases hc : (h ++ [mkTurn "You" s]).length > 200
  · simp only [if_pos hc, List.length_drop]
    omega
  · simp only [if_neg hc]
    omega

theorem appendUserHist_suffix (h : History) (s : String) :
    appendUserHist h s <:+ h ++ [mkTurn "You" s] := by
  unfold appendUserHist
  by_cases hc : (h ++ [mkTurn "You" s]).length > 200
  · simp only [if_pos hc]
    exact List.drop_suffix _ _
  · simp only [if_neg hc]
    exact List.suffix_refl _

theorem suffix_append_single {α : Type} {x y : List α} (a : α) (hxy : x <:+ y) :
    x ++ [a] <:+ y ++ [a] := by
  obtain ⟨t, ht⟩ := hxy
  exact ⟨t, by rw [← List.append_assoc, ht]⟩

theorem fieldsToStore_roundtrip (s : Store) :
    fieldsToStore (s.map fun kv => (kv.1, Json.arr kv.2)) = some s := by
  induction s with
  | nil => rfl
  | cons kv rest ih =>
    obtain ⟨k, v⟩ := kv
    simp [fieldsToStore, ih]

theorem jsonToStore_storeToJson (s : Store) : jsonToStore (storeToJson s) = some s := by
  simp [jsonToStore, storeToJson, fieldsToStore_roundtrip]

theorem load_memory_storeToJson (s : Store) :
    load_memory (some (storeToJson s)) = storeToJson s := by
  cases s with
  | nil => rfl
  | cons kv rest => rfl

theorem appendUserHist_getLast (h : History) (s : String) :
    (appendUserHist h s).getLast? = some (mkTurn "You" s) := by
  unfold appendUserHist
  by_cases hc : (h ++ [mkTurn "You" s]).length > 200
  · simp only [if_pos hc]
    rw [List.drop_append_of_le_length
      (by simp only [List.length_append, List.length_cons, List.length_nil] at hc ⊢; omega)]
    exact List.getLast?_concat _
  · simp only [if_neg hc]
    exact List.getLast?_concat _

/-- The history of the active client after the full prompt flow: the
capped user-append followed by the uncapped AI-append. -/
theorem promptFlow_hist (env : Env) (st : ServerState) (dev s : String) :
    histAt (promptFlow env st dev s).state dev
      = appendUserHist (histAt st dev) s ++ [mkTurnJ "AI" (computeReply env s).1] := by
  simp [promptFlow, mutateStore, histAt, storeGet_storeSet_self]

set_option maxRecDepth 10000 in
/-- C2, counterexample: the AI-reply append (lines 232-234) does not
enforce the 200-turn cap, so the claim that the stored history length
never exceeds 200 fails on a reachable state: after 101 consecutive
prompt requests from an empty store, client `unknown` holds 201 turns. -/
theorem C2_counterexample : (histAt (runN 101) "unknown").length = 201 := by rfl

/-- C2, amended: the user-turn append enforces the 200-turn cap by
truncating from the front (its result never exceeds 200 turns), but the
AI-reply append does not re-enforce it, so one full prompt request leaves
the client history at up to 201 turns; the final history is a suffix of
the old history followed by the new user turn and the AI turn, so the
most recent turns are kept in insertion order. -/
theorem C2_capBounds (env : Env) (st : ServerState) (dev s : String) :
    (histAt (promptFlow env st dev s).state dev).length ≤ 201 ∧
    (appendUserHist (histAt st dev) s).length ≤ 200 ∧
    histAt (promptFlow env st dev s).state dev <:+
      histAt st dev ++ [mkTurn "You" s, mkTurnJ "AI" (computeReply env s).1] := by
  refine ⟨?_, appendUserHist_length_le _ _, ?_⟩
  · rw [promptFlow_hist]
    have := appendUserHist_length_le (histAt st dev) s
    simp only [List.length_append, List.length_cons, List.length_nil]
    omega
  · rw [promptFlow_hist]
    have h2 := suffix_append_single (mkTurnJ "AI" (computeReply env s).1)
      (appendUserHist_suffix (histAt st dev) s)
    rw [List.append_assoc] at h2
    exact h2

/-- C3: after a mutating operation whose durable write succeeds, the disk
document reloaded by `load_memory` denotes exactly the in-memory mapping;
at the level of the whole handler, when both writes of a request succeed,
the final disk either denotes the final in-memory store or the request
was non-mutating and left the state untouched. -/
theorem C3_durability :
    (∀ (st : ServerState) (id : String) (h : History),
      jsonToStore (load_memory (mutateStore st true id h).disk)
        = some (mutateStore st true id h).memory) ∧
    (∀ (env : Env) (st : ServerState) (r : Request) (out : ApiOutcome),
      env.w1 = true → env.w2 = true → api env st r = .ok out →
      jsonToStore (load_memory out.state.disk) = some out.state.memory ∨ out.state = st) := by
  constructor
  · intro st id h
    simp [mutateStore, load_memory_storeToJson, jsonToStore_storeToJson]
  · intro env st r out hw1 hw2 hok
    simp only [api] at hok
    cases hir : importResult r with
    | error e => rw [hir] at hok; simp at hok
    | ok oi =>
      rw [hir] at hok
      cases oi with
      | some items =>
        simp only [Except.ok.injEq] at hok
        subst hok
        left
        simp [mutateStore, hw1, load_memory_storeToJson, jsonToStore_storeToJson]
      | none =>
        cases hui : getUserInput r with
        | error e => rw [hui] at hok; simp at hok
        | ok s =>
          rw [hui] at hok
          by_cases hcl : clearFlag r
          · simp only [hcl, if_true, Except.ok.injEq] at hok
            subst hok
            left
            simp [mutateStore, hw1, load_memory_storeToJson, jsonToStore_storeToJson]
          · simp only [hcl, Bool.false_eq_true, if_false] at hok
            by_cases hv : r.argsView = some "history"
            · simp only [hv, if_true, Except.ok.injEq] at hok
              subst hok
              right
              rfl
            · simp only [hv, if_false] at hok
              by_cases he : s = ""
              · simp only [he, if_true, Except.ok.injEq] at hok
                subst hok
                right
                rfl
              · simp only [he, if_false, Except.ok.injEq] at hok
                subst hok
                left
                simp [promptFlow, mutateStore, hw1, hw2,
                  load_memory_storeToJson, jsonToStore_storeToJson]

/-- Witness for C3 at concrete inputs: one direct mutation, and one full
clear request with successful writes. -/
theorem C3_durability_witness :
    jsonToStore (load_memory (mutateStore ⟨[], none⟩ true "c1" [mkTurn "You" "hello"]).disk)
      = some (mutateStore ⟨[], none⟩ true "c1" [mkTurn "You" "hello"]).memory ∧
    (jsonToStore (load_memory (mutateStore ⟨[], none⟩ true "unknown" ([] : History)).disk)
        = some (mutateStore ⟨[], none⟩ true "unknown" ([] : History)).memory ∨
      (⟨.str "Memory cleared!", 200, mutateStore ⟨[], none⟩ true "unknown" [], none⟩ : ApiOutcome).state
        = (⟨[], none⟩ : ServerState)) := by
  constructor
  · exact C3_durability.1 ⟨[], none⟩ "c1" [mkTurn "You" "hello"]
  · exact C3_durability.2 ⟨"", .success .null, true, true⟩ ⟨[], none⟩
      ⟨.GET, none, some "true", none, none, none, none⟩
      ⟨.str "Memory cleared!", 200, mutateStore ⟨[], none⟩ true "unknown" [], none⟩
      rfl rfl rfl

/-- C4, counterexample: when the output-object rule matches
whitespace-only text, the handler returns that text verbatim (the rule
and the caller fallback do not trim), not the sentinel the claim
requires for text that is empty after trimming. -/
theorem C4_counterexample :
    normalizeReply cexC4 = .str " " ∧ stripStr " " = "" ∧ (" " : String) ≠ "No reply" := by
  refine ⟨rfl, rfl, ?_⟩
  decide

/-- C4, amended: the extractor tries the shape rules in order with the
first structural match winning inside it, but a falsy extraction falls
through to the caller fallback (top-level `text`, then `message`) rather
than straight to the sentinel; the sentinel is produced when the
extraction and both fallback fields are falsy; matched text from the
output-object rule and the fallback fields is returned untrimmed.  The
three cited examples hold. -/
theorem C4_normalization :
    normalizeReply exC4a = .str "hi" ∧
    normalizeReply exC4b = .str "x" ∧
    normalizeReply (.obj []) = .str "No reply" ∧
    (∀ d : Json, pyTruthy (extractText d) = false →
      pyTruthy (jget d "text") = false → pyTruthy (jget d "message") = false →
      normalizeReply d = .str "No reply") := by
  refine ⟨rfl, rfl, rfl, ?_⟩
  intro d h1 h2 h3
  simp only [normalizeReply, h1, Bool.false_eq_true, if_false]
  cases d <;> simp [callerFallback, h2, h3]

/-- Witness for C4 at the empty document. -/
theorem C4_normalization_witness : normalizeReply (.obj []) = .str "No reply" :=
  C4_normalization.2.2.2 (.obj []) rfl rfl rfl

/-- C5, counterexample: an exception in the candidates rule aborts the
whole extractor (one shared try block), so the output rule — which
matches with text `y` — is never tried and the handler falls back to the
sentinel instead of `y`. -/
theorem C5_counterexample :
    rule1E cexC5 = .error () ∧
    rule23E cexC5 = .ok (some (.str "y")) ∧
    normalizeReply cexC5 = .str "No reply" ∧
    ("No reply" : String) ≠ "y" := by
  refine ⟨rfl, rfl, rfl, ?_⟩
  decide

/-- C5, amended: normalization never propagates an exception: an
exception anywhere in the extractor aborts all remaining extractor rules
and yields an empty extraction, after which only the caller fallback
(top-level `text` / `message`, then the sentinel) is applied. -/
theorem C5_exceptionAborts (d : Json) (herr : extractTextE d = .error ()) :
    normalizeReply d = callerFallback d := by
  unfold normalizeReply extractText
  rw [herr]
  simp [pyTruthy]

/-- Witness for C5 at the counterexample document. -/
theorem C5_exceptionAborts_witness : normalizeReply cexC5 = callerFallback cexC5 :=
  C5_exceptionAborts cexC5 rfl

/-- C6, counterexample: a memory payload holding a record that is not
Turn-shaped is accepted — the import succeeds and the store now holds the
non-Turn record — instead of being rejected with a validation error and
no mutation. -/
theorem C6_counterexample :
    apiBody (api ⟨"", .success .null, false, false⟩ ⟨[], none⟩ reqC6)
      = .str "Memory imported successfully!" ∧
    apiHist (api ⟨"", .success .null, false, false⟩ ⟨[], none⟩ reqC6) "unknown"
      = some [.num 42] ∧
    isTurnShaped (.num 42) = false :=
  ⟨rfl, rfl, rfl⟩

/-- C6, amended: a POST whose body carries a list-valued `memory` field
is imported verbatim — the list replaces the client history with no
Turn-shape validation of its elements — and the fixed confirmation is
returned with no provider call. -/
theorem C6_importVerbatim (env : Env) (st : ServerState) (r : Request)
    (items : List Json) (out : ApiOutcome)
    (him : importResult r = .ok (some items)) (hok : api env st r = .ok out) :
    out.body = .str "Memory imported successfully!" ∧ out.status = 200 ∧
    storeGet out.state.memory (getDeviceId r) = some items ∧ out.sent = none := by
  simp only [api] at hok
  rw [him] at hok
  simp only [Except.ok.injEq] at hok
  subst hok
  exact ⟨rfl, rfl, by simp [mutateStore, storeGet_storeSet_self], rfl⟩

/-- Witness for C6 at the concrete non-Turn payload. -/
theorem C6_importVerbatim_witness :
    (⟨.str "Memory imported successfully!", 200,
        mutateStore ⟨[], none⟩ false "unknown" [.num 42], none⟩ : ApiOutcome).body
      = .str "Memory imported successfully!" ∧
    (⟨.str "Memory imported successfully!", 200,
        mutateStore ⟨[], none⟩ false "unknown" [.num 42], none⟩ : ApiOutcome).status = 200 ∧
    storeGet (⟨.str "Memory imported successfully!", 200,
        mutateStore ⟨[], none⟩ false "unknown" [.num 42], none⟩ : ApiOutcome).state.memory
      (getDeviceId reqC6) = some [.num 42] ∧
    (⟨.str "Memory imported successfully!", 200,
        mutateStore ⟨[], none⟩ false "unknown" [.num 42], none⟩ : ApiOutcome).sent = none :=
  C6_importVerbatim ⟨"", .success .null, false, false⟩ ⟨[], none⟩ reqC6 [.num 42]
    ⟨.str "Memory imported successfully!", 200,
      mutateStore ⟨[], none⟩ false "unknown" [.num 42], none⟩ rfl rfl

/-- C1, counterexample: with two earlier non-empty stored turns, the
payload the code sends to the provider contains only the just-submitted
prompt (lines 173-181), not the spec ContextBuilder window over the
post-append stored history (which has three entries here). -/
theorem C1_counterexample :
    apiSent (api envC1 stC1 reqC1) = some [⟨"user", "c"⟩] ∧
    apiHist (api envC1 stC1 reqC1) "unknown"
      = some (postHistC1 ++ [mkTurnJ "AI" (.str "No reply")]) ∧
    contextBuilderSpec postHistC1 "c"
      = [⟨"user", "a"⟩, ⟨"responder", "b"⟩, ⟨"user", "c"⟩] ∧
    some (contextBuilderSpec postHistC1 "c") ≠ apiSent (api envC1 stC1 reqC1) := by
  refine ⟨rfl, rfl, rfl, ?_⟩
  decide

/-- C1, amended: whenever the handler calls the provider, the sequence of
role-tagged turns it sends is exactly one user turn carrying the
stripped just-submitted prompt; no stored history and no 60-turn window
is involved. -/
theorem C1_onlyPromptSent (env : Env) (st : ServerState) (r : Request) (out : ApiOutcome)
    (c : List GTurn) (hok : api env st r = .ok out) (hsent : out.sent = some c) :
    ∃ s, getUserInput r = .ok s ∧ s ≠ "" ∧ c = [⟨"user", s⟩] := by
  obtain ⟨key, prov, w1, w2⟩ := env
  simp only [api] at hok
  cases hir : importResult r with
  | error e => rw [hir] at hok; simp at hok
  | ok oi =>
    rw [hir] at hok
    cases oi with
    | some items =>
      simp only [Except.ok.injEq] at hok
      subst hok
      simp at hsent
    | none =>
      cases hui : getUserInput r with
      | error e => rw [hui] at hok; simp at hok
      | ok s =>
        rw [hui] at hok
        by_cases hcl : clearFlag r
        · simp only [hcl, if_true, Except.ok.injEq] at hok
          subst hok
          simp at hsent
        · simp only [hcl, Bool.false_eq_true, if_false] at hok
          by_cases hv : r.argsView = some "history"
          · simp only [hv, if_true, Except.ok.injEq] at hok
            subst hok
            simp at hsent
          · simp only [hv, if_false] at hok
            by_cases he : s = ""
            · simp only [he, if_true, Except.ok.injEq] at hok
              subst hok
              simp at hsent
            · simp only [he, if_false, Except.ok.injEq] at hok
              subst hok
              refine ⟨s, rfl, he, ?_⟩
              simp only [promptFlow, computeReply] at hsent
              by_cases hkey : key = ""
              · simp [hkey] at hsent
              · rw [if_neg hkey] at hsent
                cases prov <;> simp_all

/-- Witness for C1 at the counterexample request. -/
theorem C1_onlyPromptSent_witness :
    ∃ s, getUserInput reqC1 = .ok s ∧ s ≠ "" ∧ [(⟨"user", "c"⟩ : GTurn)] = [⟨"user", s⟩] :=
  C1_onlyPromptSent envC1 stC1 reqC1 (promptFlow envC1 stC1 "unknown" "c")
    [⟨"user", "c"⟩] rfl rfl

/-- C7: a failing durable write changes nothing observable besides the
disk: the response body, status, in-memory store and provider payload are
identical to those of a run with successful writes, and the disk is left
exactly as it was (the failure is caught inside `_write_memory_file`). -/
theorem C7_writeFailureIsolated :
    (∀ (key : String) (prov : ProviderOutcome) (b1 b2 b1' b2' : Bool)
      (st : ServerState) (r : Request),
      stripDisk (api ⟨key, prov, b1, b2⟩ st r) = stripDisk (api ⟨key, prov, b1', b2'⟩ st r)) ∧
    (∀ (key : String) (prov : ProviderOutcome) (st : ServerState) (r : Request)
      (out : ApiOutcome),
      api ⟨key, prov, false, false⟩ st r = .ok out → out.state.disk = st.disk) := by
  constructor
  · intro key prov b1 b2 b1' b2' st r
    simp only [api]
    cases hir : importResult r with
    | error e => rfl
    | ok oi =>
      cases oi with
      | some items => simp [stripDisk, mutateStore, Except.map]
      | none =>
        cases hui : getUserInput r with
        | error e => rfl
        | ok s =>
          by_cases hcl : clearFlag r
          · simp [hcl, stripDisk, mutateStore, Except.map]
          · by_cases hv : r.argsView = some "history"
            · simp [hcl, hv]
            · by_cases he : s = ""
              · simp [hcl, hv, he]
              · simp [hcl, hv, he, stripDisk, Except.map, promptFlow, mutateStore,
                  computeReply, storeGet_storeSet_self]
  · intro key prov st r out hok
    simp only [api] at hok
    cases hir : importResult r with
    | error e => rw [hir] at hok; simp at hok
    | ok oi =>
      rw [hir] at hok
      cases oi with
      | some items =>
        simp only [Except.ok.injEq] at hok
        subst hok
        simp [mutateStore]
      | none =>
        cases hui : getUserInput r with
        | error e => rw [hui] at hok; simp at hok
        | ok s =>
          rw [hui] at hok
          by_cases hcl : clearFlag r
          · simp only [hcl, if_true, Except.ok.injEq] at hok
            subst hok
            simp [mutateStore]
          · simp only [hcl, Bool.false_eq_true, if_false] at hok
            by_cases hv : r.argsView = some "history"
            · simp only [hv, if_true, Except.ok.injEq] at hok
              subst hok
              rfl
            · simp only [hv, if_false] at hok
              by_cases he : s = ""
              · simp only [he, if_true, Except.ok.injEq] at hok
                subst hok
                rfl
              · simp only [he, if_false, Except.ok.injEq] at hok
                subst hok
                simp [promptFlow, mutateStore]

/-- Witness for C7: a prompt request with both writes failing leaves the
disk untouched. -/
theorem C7_writeFailureIsolated_witness :
    (promptFlow ⟨"", .success .null, false, false⟩ ⟨[], none⟩ "unknown" "p").state.disk
      = (⟨[], none⟩ : ServerState).disk :=
  C7_writeFailureIsolated.2 "" (.success .null) ⟨[], none⟩
    ⟨.GET, none, none, none, some "p", none, none⟩
    (promptFlow ⟨"", .success .null, false, false⟩ ⟨[], none⟩ "unknown" "p") rfl

/-- C8, counterexample: a POST that requests a clear and also carries a
memory import payload takes the import branch (lines 129-137 run before
the clear branch at lines 145-149): the import confirmation is returned
and the history holds the imported turn instead of being cleared. -/
theorem C8_counterexample :
    clearFlag reqC8 = true ∧
    apiBody (api ⟨"", .success .null, false, false⟩ ⟨[], none⟩ reqC8)
      = .str "Memory imported successfully!" ∧
    (apiHist (api ⟨"", .success .null, false, false⟩ ⟨[], none⟩ reqC8) "unknown").map List.length
      = some 1 ∧
    ("Memory imported successfully!" : String) ≠ "Memory cleared!" := by
  refine ⟨rfl, rfl, rfl, ?_⟩
  decide

/-- C8, amended: a history-clear request resets the client history to
empty and returns the fixed confirmation with no provider call — except
when the same POST also carries a list-valued memory payload, in which
case the import branch is dispatched first and wins. -/
theorem C8_clearUnlessImport (env : Env) (st : ServerState) (r : Request) (out : ApiOutcome)
    (hcl : clearFlag r = true) (him : importResult r = .ok none)
    (hok : api env st r = .ok out) :
    out.body = .str "Memory cleared!" ∧ out.status = 200 ∧
    storeGet out.state.memory (getDeviceId r) = some [] ∧ out.sent = none := by
  simp only [api] at hok
  rw [him] at hok
  cases hui : getUserInput r with
  | error e => rw [hui] at hok; simp at hok
  | ok s =>
    rw [hui] at hok
    simp only [hcl, if_true, Except.ok.injEq] at hok
    subst hok
    exact ⟨rfl, rfl, by simp [mutateStore, storeGet_storeSet_self], rfl⟩

/-- Witness for C8 at a GET clear request. -/
theorem C8_clearUnlessImport_witness :
    (⟨.str "Memory cleared!", 200,
        mutateStore ⟨[("a", [mkTurn "You" "x"])], none⟩ false "unknown" [], none⟩
      : ApiOutcome).body = .str "Memory cleared!" ∧
    (⟨.str "Memory cleared!", 200,
        mutateStore ⟨[("a", [mkTurn "You" "x"])], none⟩ false "unknown" [], none⟩
      : ApiOutcome).status = 200 ∧
    storeGet (⟨.str "Memory cleared!", 200,
        mutateStore ⟨[("a", [mkTurn "You" "x"])], none⟩ false "unknown" [], none⟩
      : ApiOutcome).state.memory
      (getDeviceId ⟨.GET, none, some "true", none, none, none, none⟩) = some [] ∧
    (⟨.str "Memory cleared!", 200,
        mutateStore ⟨[("a", [mkTurn "You" "x"])], none⟩ false "unknown" [], none⟩
      : ApiOutcome).sent = none :=
  C8_clearUnlessImport ⟨"", .success .null, false, false⟩ ⟨[("a", [mkTurn "You" "x"])], none⟩
    ⟨.GET, none, some "true", none, none, none, none⟩
    ⟨.str "Memory cleared!", 200,
      mutateStore ⟨[("a", [mkTurn "You" "x"])], none⟩ false "unknown" [], none⟩
    rfl rfl rfl

/-- C9: the prompt is stripped before any use: both input channels strip
the raw value, a prompt whose strip is empty is rejected with 400 before
any store mutation and leaves the state unchanged, and an accepted
prompt is stored in the user turn exactly as stripped (it sits directly
before the final AI turn). -/
theorem C9_trimmedPrompt :
    (∀ (r : Request) (raw : String), r.method = .GET → r.argsInput = some raw →
      getUserInput r = .ok (stripStr raw)) ∧
    (∀ (r : Request) (raw : String), r.method = .POST →
      jget (bodyData r) "input" = .str raw →
      getUserInput r = .ok (stripStr raw)) ∧
    (∀ (env : Env) (st : ServerState) (r : Request),
      importResult r = .ok none → clearFlag r = false → r.argsView ≠ some "history" →
      getUserInput r = .ok "" →
      api env st r = .ok ⟨.str "No input", 400, st, none⟩) ∧
    (∀ (env : Env) (st : ServerState) (dev s : String),
      (histAt (promptFlow env st dev s).state dev).dropLast.getLast?
        = some (mkTurn "You" s)) := by
  refine ⟨?_, ?_, ?_, ?_⟩
  · intro r raw hm ha
    obtain ⟨m, a1, a2, a3, a4, a5, a6⟩ := r
    simp only at hm ha
    subst hm
    simp [getUserInput, ha]
  · intro r raw hm hj
    obtain ⟨m, a1, a2, a3, a4, a5, a6⟩ := r
    simp only at hm hj
    subst hm
    cases hbd : bodyData ⟨.POST, a1, a2, a3, a4, a5, a6⟩ with
    | null => rw [hbd] at hj; simp [jget] at hj
    | bool b => rw [hbd] at hj; simp [jget] at hj
    | num n => rw [hbd] at hj; simp [jget] at hj
    | str s2 => rw [hbd] at hj; simp [jget] at hj
    | arr items => rw [hbd] at hj; simp [jget] at hj
    | obj fields =>
      rw [hbd] at hj
      simp only [jget] at hj
      simp only [getUserInput, hbd, pyGetD, hj]
      by_cases hr : raw = ""
      · subst hr
        rfl
      · simp [pyTruthy, pyStrip, hr]
  · intro env st r him hcl hv hui
    simp only [api]
    simp [him, hui, hcl, hv]
  · intro env st dev s
    rw [promptFlow_hist, List.dropLast_concat, appendUserHist_getLast]

/-- Witness for C9: a GET with whitespace-only input is rejected with 400
and the state unchanged. -/
theorem C9_trimmedPrompt_witness :
    api ⟨"", .success .null, false, false⟩ ⟨[], none⟩
      ⟨.GET, none, none, none, some "   ", none, none⟩
      = .ok ⟨.str "No input", 400, ⟨[], none⟩, none⟩ :=
  C9_trimmedPrompt.2.2.1 ⟨"", .success .null, false, false⟩ ⟨[], none⟩
    ⟨.GET, none, none, none, some "   ", none, none⟩ rfl rfl (by decide) rfl

/-- C10: every mutating branch of the handler touches only the resolved
device id — all other keys of the store read the same afterwards — and a
mutation on an id inserts or overwrites exactly that key (so clear and
append on an unseen id insert it). -/
theorem C10_frame :
    (∀ (env : Env) (st : ServerState) (r : Request) (out : ApiOutcome) (k : String),
      api env st r = .ok out → k ≠ getDeviceId r →
      storeGet out.state.memory k = storeGet st.memory k) ∧
    (∀ (st : ServerState) (w : Bool) (dev : String) (h : History),
      storeGet (mutateStore st w dev h).memory dev = some h) := by
  constructor
  · intro env st r out k hok hk
    simp only [api] at hok
    cases hir : importResult r with
    | error e => rw [hir] at hok; simp at hok
    | ok oi =>
      rw [hir] at hok
      cases oi with
      | some items =>
        simp only [Except.ok.injEq] at hok
        subst hok
        simp [mutateStore, storeGet_storeSet_ne _ _ _ _ hk]
      | none =>
        cases hui : getUserInput r with
        | error e => rw [hui] at hok; simp at hok
        | ok s =>
          rw [hui] at hok
          by_cases hcl : clearFlag r
          · simp only [hcl, if_true, Except.ok.injEq] at hok
            subst hok
            simp [mutateStore, storeGet_storeSet_ne _ _ _ _ hk]
          · simp only [hcl, Bool.false_eq_true, if_false] at hok
            by_cases hv : r.argsView = some "history"
            · simp only [hv, if_true, Except.ok.injEq] at hok
              subst hok
              rfl
            · simp only [hv, if_false] at hok
              by_cases he : s = ""
              · simp only [he, if_true, Except.ok.injEq] at hok
                subst hok
                rfl
              · simp only [he, if_false, Except.ok.injEq] at hok
                subst hok
                simp [promptFlow, mutateStore, storeGet_storeSet_ne _ _ _ _ hk]
  · intro st w dev h
    simp [mutateStore, storeGet_storeSet_self]

/-- Witness for C10: a clear request for `unknown` leaves client `a`
untouched. -/
theorem C10_frame_witness :
    storeGet (⟨.str "Memory cleared!", 200,
        mutateStore ⟨[("a", [mkTurn "You" "x"])], none⟩ false "unknown" [], none⟩
      : ApiOutcome).state.memory "a"
      = storeGet ([("a", [mkTurn "You" "x"])] : Store) "a" :=
  C10_frame.1 ⟨"", .success .null, false, false⟩ ⟨[("a", [mkTurn "You" "x"])], none⟩
    ⟨.GET, none, some "true", none, none, none, none⟩
    ⟨.str "Memory cleared!", 200,
      mutateStore ⟨[("a", [mkTurn "You" "x"])], none⟩ false "unknown" [], none⟩
    "a" rfl (by decide)

end JTAICB
